import Mathlib

/-!
Verification development for the solar-quote backend (server.js, MCS-table
revision). The definitions below are a shallow embedding of the JavaScript
source: numbers are modelled as rationals (reals only where the source uses
the transcendental `Math.exp`), JS `undefined`-able values as `Option`,
JS objects as structures, and JS `x || d` defaulting as explicit helpers.
-/

namespace Solar

/-- JS `Math.round`: round half towards positive infinity. -/
def jsRound (q : ℚ) : ℤ := ⌊q + 1/2⌋

/-- JS `Math.round` on a real argument (used where the source mixes in
`Math.exp`-derived values). -/
noncomputable def jsRoundR (x : ℝ) : ℤ := ⌊x + 1/2⌋

/-- JS `Number(x || 0)` on a possibly-undefined numeric field: `undefined`
and `0` both collapse to `0`. -/
def orZero (o : Option ℚ) : ℚ := o.getD 0

/-- JS `s || d` on a possibly-undefined string: `undefined` and the empty
string are falsy and yield the default. -/
def strOr (o : Option String) (d : String) : String :=
  match o with
  | none => d
  | some s => if s = "" then d else s

/-- JS truthiness of a possibly-undefined string. -/
def strTruthy (o : Option String) : Bool :=
  match o with
  | none => false
  | some s => !(s = "")

/-- Number rounded to 2 decimal places, for JS `Number(x.toFixed(2))`. -/
def round2 (q : ℚ) : ℚ := (jsRound (q * 100) : ℚ) / 100

/-- Number rounded to 1 decimal place, for JS `Number(x.toFixed(1))`. -/
def round1 (q : ℚ) : ℚ := (jsRound (q * 10) : ℚ) / 10

/-! ### Character classes used by the postcode normaliser -/

/-- ASCII uppercase letter, the regex class `[A-Z]`. -/
def isLetterCh (c : Char) : Bool := decide (65 ≤ c.toNat ∧ c.toNat ≤ 90)

/-- ASCII digit, the regex class `\d`. -/
def isDigitCh (c : Char) : Bool := decide (48 ≤ c.toNat ∧ c.toNat ≤ 57)

/-- The regex class `[A-Z\d]`. -/
def isAlnumCh (c : Char) : Bool := isLetterCh c || isDigitCh c

/-- Whitespace as matched by the JS regex class `\s` (ASCII part). -/
def isWsCh (c : Char) : Bool := decide (c.toNat = 32 ∨ (9 ≤ c.toNat ∧ c.toNat ≤ 13))

/-- Per-character JS `toUpperCase` (ASCII part). -/
def upperChar (c : Char) : Char :=
  if 97 ≤ c.toNat ∧ c.toNat ≤ 122 then Char.ofNat (c.toNat - 32) else c

/-- The anchored postcode pattern `[A-Z]{1,2}\d[A-Z\d]?\s\d[A-Z]{2}`,
unfolded over the three possible total lengths. -/
def pcMatch : List Char → Bool
  | [a, b, s, d, e, f] =>
      isLetterCh a && isDigitCh b && isWsCh s &&
      isDigitCh d && isLetterCh e && isLetterCh f
  | [a, b, c, s, d, e, f] =>
      isLetterCh a && ((isLetterCh b && isDigitCh c) || (isDigitCh b && isAlnumCh c)) &&
      isWsCh s && isDigitCh d && isLetterCh e && isLetterCh f
  | [a, b, c, x, s, d, e, f] =>
      isLetterCh a && isLetterCh b && isDigitCh c && isAlnumCh x &&
      isWsCh s && isDigitCh d && isLetterCh e && isLetterCh f
  | _ => false

/-- `validateAndNormalisePostcode`: uppercase, strip whitespace, re-insert a
single space before the last 3 characters, test against the pattern.
`none` models a thrown validation error. -/
def validateAndNormalisePostcode (raw : List Char) : Option (List Char) :=
  if raw = [] then none
  else
    let cleaned := (raw.map upperChar).filter (fun c => !isWsCh c)
    if cleaned.length < 5 then none
    else
      let formatted := cleaned.take (cleaned.length - 3) ++ ' ' :: cleaned.drop (cleaned.length - 3)
      if pcMatch formatted then some formatted else none

/-! ### Region classification -/

/-- `getPostcodeArea`: leading 1-2 letter area code of the outward part. -/
def getPostcodeArea (postcode : Option String) : Option String :=
  match postcode with
  | none => none
  | some p =>
    if p = "" then none
    else
      let outward := (((p.trim).map upperChar).splitOn " ").headD ""
      match outward.toList with
      | [] => none
      | c :: rest =>
        if isLetterCh c then
          match rest with
          | d :: _ => if isLetterCh d then some (String.mk [c, d]) else some (String.mk [c])
          | [] => some (String.mk [c])
        else none

structure RegionInfo where
  key : String
  kWhPerKwp : ℚ
deriving DecidableEq

/-- The static `REGION_TABLE`: (region key, member areas, yield coefficient). -/
def REGION_TABLE : List (String × List String × ℚ) :=
  [ ("scotland", ["AB", "DD", "FK", "IV", "KW", "KY", "PH", "HS", "ZE"], 875)
  , ("north", ["DG", "EH", "G", "KA", "ML", "TD", "NE", "DH", "SR", "TS"], 925)
  , ("north_midlands", ["LA", "CA", "DL", "YO", "BB", "BD", "HD", "HG", "HU", "LS", "WF"], 950)
  , ("midlands", ["L", "M", "PR", "WN", "BL", "OL", "SK", "CW", "CH", "WA", "SY", "ST", "DE", "NG", "LE", "NN", "CV", "B"], 975)
  , ("wales_south_central", ["CF", "NP", "SA", "LD", "HR", "GL", "OX", "SN", "RG"], 1025)
  , ("south_west", ["BA", "BS", "TA", "DT", "BH", "SP", "SO", "PO"], 1050)
  , ("devon_cornwall", ["EX", "TQ", "TR", "PL"], 1100)
  , ("south_east", ["GU", "KT", "SM", "CR", "RH", "BN", "ME", "TN", "BR", "DA"], 1075)
  , ("london", ["SW", "SE", "W", "NW", "N", "E", "EC", "WC", "HA", "UB", "TW"], 1050)
  ]

/-- `getRegionInfoForPostcode`: first-match area lookup, default region on miss. -/
def getRegionInfoForPostcode (postcode : Option String) : RegionInfo :=
  match getPostcodeArea postcode with
  | none => ⟨"default", 975⟩
  | some area =>
    let upperArea := area.map upperChar
    match REGION_TABLE.find? (fun r => r.2.1.contains upperArea) with
    | some r => ⟨r.1, r.2.2⟩
    | none => ⟨"default", 975⟩

/-- `getShadingFactor` (stored on the quote, not applied to prices). -/
def getShadingFactor (shading : Option String) : ℚ :=
  if shading = some "none" then 1
  else if shading = some "some" then 9/10
  else if shading = some "a_lot" then 4/5
  else 19/20

/-! ### Quote input data model -/

structure RoofFace where
  panels : Option ℚ
  tilt : Option ℚ
  orientation : Option String
  shading : Option String
deriving DecidableEq

structure Extras where
  birdProtection : Bool
  evCharger : Bool
deriving DecidableEq

structure QuoteInput where
  postcode : Option String
  houseNumber : Option String
  monthlyBill : Option ℚ
  annualKWh : Option ℚ
  roofSize : Option String
  roofs : Option (List RoofFace)
  panelOption : Option String
  PanelOption : Option String
  panelCount : Option ℚ
  batteryKWh : Option ℚ
  occupancyProfile : Option String
  shading : Option String
  extras : Option Extras
  name : Option String
  email : Option String
  address : Option String
  phone : Option String
deriving DecidableEq

/-- The second argument of `calculateQuote`. -/
structure Opts where
  annualGenerationOverrideKWh : Option ℚ
deriving DecidableEq

/-! ### Static configuration (the `CONFIG` object) -/

structure Config where
  baseCostPerKwp : ℚ
  batteryCostPerKwh : ℚ
  scaffoldingFirstRoof : ℚ
  scaffoldingAdditionalRoof : ℚ
  priceRangeFactor : ℚ
  assumedPricePerKWh : ℚ
  assumedSegPricePerKWh : ℚ
  irradianceFactor : ℚ

def CONFIG : Config :=
  { baseCostPerKwp := 800
  , batteryCostPerKwh := 440
  , scaffoldingFirstRoof := 600
  , scaffoldingAdditionalRoof := 400
  , priceRangeFactor := 1/10
  , assumedPricePerKWh := 28/100
  , assumedSegPricePerKWh := 12/100
  , irradianceFactor := 85/100
  }

structure PanelOpt where
  watt : ℚ
  multiplier : ℚ
deriving DecidableEq

/-- The `CONFIG.panelOptions` object as a keyed lookup. -/
def panelOptions (key : String) : Option PanelOpt :=
  if key = "value" then some ⟨430, 1⟩
  else if key = "premium" then some ⟨460, 112/100⟩
  else none

/-- The `CONFIG.roofKwpCaps` object as a keyed lookup. -/
def roofKwpCaps (key : String) : Option ℚ :=
  if key = "small" then some (5/2)
  else if key = "medium" then some 4
  else if key = "large" then some (13/2)
  else none

/-- The `CONFIG.regionalMultipliers` object as a keyed lookup. -/
def regionalMultipliers (key : String) : Option ℚ :=
  if key = "default" then some 1
  else if key = "london" then some (11/10)
  else if key = "scotland" then some (19/20)
  else none

/-! ### Sizing and cost engine (`calculateQuote`), split into the
local bindings of the function. Each helper mirrors one `let`/`const` of the
source; `calculateQuote` assembles them and also returns the post-call
input object, because the source assigns to `input.panelOption`. -/

/-- Line `input.panelOption || input.PanelOption || "value"`. -/
def normalizedPanelOption (i : QuoteInput) : String :=
  strOr i.panelOption (strOr i.PanelOption "value")

/-- `cfg.panelOptions[input.panelOption] || cfg.panelOptions.value`,
read after the panel-option normalisation was written back. -/
def resolvedPanelOpt (i : QuoteInput) : PanelOpt :=
  (panelOptions (normalizedPanelOption i)).getD ⟨430, 1⟩

/-- `panelOpt.watt / 1000`. -/
def panelKwpOf (i : QuoteInput) : ℚ := (resolvedPanelOpt i).watt / 1000

/-- `input.roofs.reduce((sum, r) => sum + Number(r?.panels || 0), 0)`. -/
def roofsPanelsTotal (i : QuoteInput) : ℚ :=
  ((i.roofs.getD []).map (fun r => orZero r.panels)).sum

/-- `Array.isArray(input.roofs) && input.roofs.length > 0`. -/
def roofsProvided (i : QuoteInput) : Bool :=
  match i.roofs with
  | some l => !l.isEmpty
  | none => false

/-- The roofs-override branch: taken only when no positive manual
`panelCount` is present and the declared roofs sum to a positive count. -/
def panelCountFromRoofs (i : QuoteInput) : Option ℚ :=
  if orZero i.panelCount ≤ 0 ∧ roofsProvided i = true ∧ 0 < roofsPanelsTotal i then
    some (roofsPanelsTotal i)
  else none

/-- Annual consumption: `annualKWh`, else `monthlyBill*12/price`, else 3000. -/
def resolvedAnnualKWh (i : QuoteInput) : ℚ :=
  let a0 := orZero i.annualKWh
  let a1 :=
    if a0 = 0 ∧ orZero i.monthlyBill ≠ 0 then
      orZero i.monthlyBill * 12 / CONFIG.assumedPricePerKWh
    else a0
  if a1 = 0 then 3000 else a1

/-- The manual-override branch: `input.panelCount` used verbatim when the
roofs branch did not fire and the manual value is positive. -/
def manualPanelCount (i : QuoteInput) : Option ℚ :=
  if panelCountFromRoofs i = none ∧ 0 < orZero i.panelCount then
    some (orZero i.panelCount)
  else none

/-- Automatic sizing, target capacity: consumption / 1000 kWh-per-kWp,
clamped to [2, roof cap], 10 percent reduction under heavy shading. -/
def autoRequiredKwp (i : QuoteInput) : ℚ :=
  let requiredKwp0 := resolvedAnnualKWh i / 1000
  let roofCap :=
    match i.roofSize with
    | some s => (roofKwpCaps s).getD 4
    | none => 4
  let r1 := min (max requiredKwp0 2) roofCap
  if i.shading = some "a_lot" then r1 * (9/10) else r1

/-- Automatic sizing, panel conversion before the 6-panel floor. -/
def autoPanelCountZ (i : QuoteInput) : ℤ :=
  jsRound (autoRequiredKwp i / panelKwpOf i)

/-- Automatic panel count: converted target capacity, floored at 6 panels. -/
def autoPanelCount (i : QuoteInput) : ℚ :=
  ((if autoPanelCountZ i < 6 then 6 else autoPanelCountZ i : ℤ) : ℚ)

/-- The resolved `panelCount` local: roofs override, else manual, else auto. -/
def resolvedPanelCount (i : QuoteInput) : ℚ :=
  match panelCountFromRoofs i with
  | some v => v
  | none =>
    match manualPanelCount i with
    | some v => v
    | none => autoPanelCount i

def systemSizeKwpOf (i : QuoteInput) : ℚ := resolvedPanelCount i * panelKwpOf i

/-- `regionInfo.key || "default"`. -/
def regionKeyOf (i : QuoteInput) : String :=
  if (getRegionInfoForPostcode i.postcode).key = "" then "default"
  else (getRegionInfoForPostcode i.postcode).key

/-- `cfg.regionalMultipliers[regionKey] || cfg.regionalMultipliers.default`. -/
def regionMultOf (i : QuoteInput) : ℚ :=
  (regionalMultipliers (regionKeyOf i)).getD 1

def baseSystemCostOf (i : QuoteInput) : ℚ :=
  systemSizeKwpOf i * CONFIG.baseCostPerKwp * (resolvedPanelOpt i).multiplier * regionMultOf i

def panelsCostOf (i : QuoteInput) : ℚ := baseSystemCostOf i * (1/2)

def inverterCostOf (i : QuoteInput) : ℚ := baseSystemCostOf i * (23/100)

/-- Declared roof-face count, minimum 1 when none are declared. -/
def roofCountOf (i : QuoteInput) : ℕ :=
  match i.roofs with
  | some l => if l.isEmpty then 1 else l.length
  | none => 1

def scaffoldingCostOf (i : QuoteInput) : ℚ :=
  (CONFIG.scaffoldingFirstRoof +
    max ((roofCountOf i : ℚ) - 1) 0 * CONFIG.scaffoldingAdditionalRoof) * regionMultOf i

def batteryCostOf (i : QuoteInput) : ℚ :=
  if 0 < orZero i.batteryKWh then
    orZero i.batteryKWh * CONFIG.batteryCostPerKwh * regionMultOf i
  else 0

def extrasCostOf (i : QuoteInput) : ℚ :=
  (if (i.extras.map Extras.birdProtection).getD false then 350 * regionMultOf i else 0) +
  (if (i.extras.map Extras.evCharger).getD false then 900 * regionMultOf i else 0)

def directCostsOf (i : QuoteInput) : ℚ :=
  panelsCostOf i + inverterCostOf i + scaffoldingCostOf i + batteryCostOf i + extrasCostOf i

def labourAndMarginOf (i : QuoteInput) : ℚ := directCostsOf i * (3/10)

def totalCostOf (i : QuoteInput) : ℚ := directCostsOf i + labourAndMarginOf i

/-- The fallback generation estimate: capacity times the irradiance factor
times 1000, rounded to the nearest integer. -/
def fallbackAnnualOf (i : QuoteInput) : ℤ :=
  jsRound (systemSizeKwpOf i * CONFIG.irradianceFactor * 1000)

structure Breakdown where
  panels : ℤ
  inverter : ℤ
  battery : ℤ
  scaffolding : ℤ
  extras : ℤ
  labourAndMargin : ℤ
deriving DecidableEq

structure Quote where
  systemSizeKwp : ℚ
  panelCount : ℚ
  panelWatt : ℚ
  priceLow : ℤ
  priceHigh : ℤ
  breakdown : Breakdown
  estAnnualGenerationKWh : ℚ
  kWhPerKwpRegion : ℚ
  shadingFactor : ℚ
  assumedAnnualConsumptionKWh : ℤ
deriving DecidableEq

/-- `calculateQuote(input, opts)`. The second component of the result is
the input object as it stands after the call, reflecting the source JS
assignment `input.panelOption = normalizedPanelOption`. -/
def calculateQuote (input : QuoteInput) (opts : Opts) : Quote × QuoteInput :=
  ({ systemSizeKwp := round2 (systemSizeKwpOf input)
   , panelCount := resolvedPanelCount input
   , panelWatt := (resolvedPanelOpt input).watt
   , priceLow := jsRound (totalCostOf input * (1 - CONFIG.priceRangeFactor))
   , priceHigh := jsRound (totalCostOf input * (1 + CONFIG.priceRangeFactor))
   , breakdown :=
     { panels := jsRound (panelsCostOf input)
     , inverter := jsRound (inverterCostOf input)
     , battery := jsRound (batteryCostOf input)
     , scaffolding := jsRound (scaffoldingCostOf input)
     , extras := jsRound (extrasCostOf input)
     , labourAndMargin := jsRound (labourAndMarginOf input)
     }
   , estAnnualGenerationKWh :=
     (opts.annualGenerationOverrideKWh).getD ((fallbackAnnualOf input : ℤ) : ℚ)
   , kWhPerKwpRegion := (getRegionInfoForPostcode input.postcode).kWhPerKwp
   , shadingFactor := getShadingFactor input.shading
   , assumedAnnualConsumptionKWh := jsRound (resolvedAnnualKWh input)
   },
   { input with panelOption := some (normalizedPanelOption input) })

/-! ### MCS self-consumption tables

The table data lives in `data/mcs_self_consumption_tables.json`, which is
not part of the source tree; only its shape is determined by the lookup
code. The lookup is therefore parameterised over the loaded data, with
`Option` fields wherever the source guards with `typeof x === "number"`
or `Array.isArray`. -/

structure GenRow where
  binMin : Option ℚ
  binMax : Option ℚ
  fractions : List (Option ℚ)
deriving DecidableEq

structure ConsBand where
  consMin : Option ℚ
  consMax : Option ℚ
  batteryCols : List (Option ℚ)
  rows : Option (List GenRow)
deriving DecidableEq

/-- The parsed JSON `tables` object: occupancy key to consumption bands. -/
abbrev McsData := List (String × List ConsBand)

/-- The battery-column scan: first index minimising the distance to the
requested battery size, skipping non-numeric columns; index 0 when no
column is numeric. -/
def pickIdxGo (batt : ℚ) : List (Option ℚ) → ℕ → ℕ → Option ℚ → ℕ
  | [], _, bestIdx, _ => bestIdx
  | c :: rest, i, bestIdx, bestDiff =>
    match c with
    | none => pickIdxGo batt rest (i + 1) bestIdx bestDiff
    | some v =>
      let d := |v - batt|
      match bestDiff with
      | none => pickIdxGo batt rest (i + 1) i (some d)
      | some bd =>
        if d < bd then pickIdxGo batt rest (i + 1) i (some d)
        else pickIdxGo batt rest (i + 1) bestIdx (some bd)

def pickBestBatteryIdx (cols : List (Option ℚ)) (batt : ℚ) : ℕ :=
  pickIdxGo batt cols 0 0 none

/-- `lookupMcsSelfConsumptionFraction`: returns a fraction from the banded
tables, or `none` when the tables are missing, the inputs are non-positive,
no band or generation bin matches, the battery columns are absent, or the
selected cell holds no number. -/
def lookupMcsSelfConsumptionFraction (tables : Option McsData)
    (annualGenerationKWh annualConsumptionKWh batteryKWh : ℚ)
    (occupancyProfile : String) : Option ℚ :=
  match tables with
  | none => none
  | some tbls =>
    if annualGenerationKWh ≤ 0 then none
    else if annualConsumptionKWh ≤ 0 then none
    else
      let occ := if (tbls.lookup occupancyProfile).isSome then occupancyProfile else "half_day"
      match tbls.lookup occ with
      | none => none
      | some tablesForOcc =>
        if tablesForOcc = [] then none
        else
          match tablesForOcc.find? (fun t =>
              match t.consMin, t.consMax with
              | some mn, some mx =>
                decide (mn ≤ annualConsumptionKWh ∧ annualConsumptionKWh ≤ mx)
              | _, _ => false) with
          | none => none
          | some table =>
            match table.rows with
            | none => none
            | some rows =>
              match rows.find? (fun r =>
                  match r.binMin, r.binMax with
                  | some mn, some mx =>
                    decide (mn ≤ annualGenerationKWh ∧ annualGenerationKWh ≤ mx)
                  | _, _ => false) with
              | none => none
              | some row =>
                if table.batteryCols = [] then none
                else
                  match row.fractions.getD (pickBestBatteryIdx table.batteryCols batteryKWh) none with
                  | none => none
                  | some f => some f

/-! ### Heuristic battery uplift (`batteryUpliftMcsTrend`)

The saturating curve uses `Math.exp`, so this corner of the model lives in
the reals. -/

/-- The `lerp` helper of the source. -/
noncomputable def lerpR (x x1 y1 x2 y2 : ℝ) : ℝ :=
  if x ≤ x1 then y1
  else if x2 ≤ x then y2
  else y1 + (y2 - y1) * (x - x1) / (x2 - x1)

/-- The loop of `piecewiseRatioValue`: walk adjacent point pairs, return
the interpolation of the first bracketing pair, else the last value. -/
noncomputable def piecewiseAux (r : ℝ) : ℝ × ℝ → List (ℝ × ℝ) → ℝ
  | a, [] => a.2
  | a, b :: rest =>
    if a.1 ≤ r ∧ r ≤ b.1 then lerpR r a.1 a.2 b.1 b.2 else piecewiseAux r b rest

noncomputable def piecewiseRatioValue (r : ℝ) : List (ℝ × ℝ) → ℝ
  | [] => 0
  | p :: rest => if r ≤ p.1 then p.2 else piecewiseAux r p rest

/-- Per-occupancy scale constant and ratio anchor points of the uplift
curve (the `switch` in `batteryUpliftMcsTrend`). -/
noncomputable def upliftParams (occupancyProfile : String) : ℝ × List (ℝ × ℝ) :=
  if occupancyProfile = "home_all_day" then
    (24/10, [(6/10, 49/100), (9/10, 46/100), (11/10, 41/100), (135/100, 37/100), (175/100, 30/100)])
  else if occupancyProfile = "out_all_day" then
    (43/10, [(6/10, 68/100), (9/10, 64/100), (11/10, 58/100), (135/100, 47/100), (175/100, 38/100)])
  else
    (3, [(6/10, 57/100), (9/10, 53/100), (11/10, 48/100), (135/100, 41/100), (175/100, 34/100)])

/-- `batteryUpliftMcsTrend`: zero for a non-positive battery, otherwise a
saturating exponential scaled by the ratio-interpolated ceiling, clamped
to [0, 0.80]. -/
noncomputable def batteryUpliftMcsTrend (occupancyProfile : String) (ratio batteryKWh : ℝ) : ℝ :=
  if max 0 batteryKWh ≤ 0 then 0
  else
    max 0 (min
      (piecewiseRatioValue
          (max (1/2) (min 2 (if ratio = 0 then 1 else ratio)))
          (upliftParams occupancyProfile).2
        * (1 - Real.exp (-(max 0 batteryKWh) / (upliftParams occupancyProfile).1)))
      (8/10))

/-! ### Self-consumption and savings estimator -/

structure SavingsResult where
  selfConsumptionFraction : ℝ
  selfConsumptionKWh : ℤ
  annualBillSavings : ℤ
  annualSegIncome : ℤ
  totalAnnualBenefit : ℤ
  simplePaybackYears : Option ℚ
  selfConsumptionModel : Option String

/-- The degenerate-input result (the early return when generation or
consumption is zero/unset); the source object carries no model tag. -/
def zeroSavings : SavingsResult :=
  { selfConsumptionFraction := 0
  , selfConsumptionKWh := 0
  , annualBillSavings := 0
  , annualSegIncome := 0
  , totalAnnualBenefit := 0
  , simplePaybackYears := none
  , selfConsumptionModel := none
  }

/-- `quote.assumedAnnualConsumptionKWh || input.annualKWh || gen || 0`. -/
def demandOf (i : QuoteInput) (q : Quote) : ℚ :=
  if (q.assumedAnnualConsumptionKWh : ℚ) ≠ 0 then (q.assumedAnnualConsumptionKWh : ℚ)
  else if orZero i.annualKWh ≠ 0 then orZero i.annualKWh
  else if q.estAnnualGenerationKWh ≠ 0 then q.estAnnualGenerationKWh
  else 0

/-- The guarded table attempt: only when generation and consumption are
both at most 6000 kWh. -/
def mcsAttempt (tables : Option McsData) (i : QuoteInput) (q : Quote) : Option ℚ :=
  if q.estAnnualGenerationKWh ≤ 6000 ∧ demandOf i q ≤ 6000 then
    lookupMcsSelfConsumptionFraction tables q.estAnnualGenerationKWh (demandOf i q)
      (orZero i.batteryKWh) (strOr i.occupancyProfile "half_day")
  else none

/-- The generation-to-demand ratio clamped to [0.5, 2]. -/
def clampedRatio (i : QuoteInput) (q : Quote) : ℚ :=
  let r := q.estAnnualGenerationKWh / demandOf i q
  if r < 1/2 then 1/2 else if r > 2 then 2 else r

/-- Per-occupancy base self-consumption anchors at ratios 0.5, 1.0, 2.0. -/
def heuristicBaseAnchors (occ : String) : ℚ × ℚ × ℚ :=
  if occ = "home_all_day" then (1/2, 3/10, 1/4)
  else if occ = "out_all_day" then (6/25, 9/50, 3/25)
  else (2/5, 1/4, 3/20)

/-- The rational `lerp` of the source (the local helper inside the estimator). -/
def lerpQ (x x1 y1 x2 y2 : ℚ) : ℚ :=
  if x ≤ x1 then y1
  else if x2 ≤ x then y2
  else y1 + (y2 - y1) * (x - x1) / (x2 - x1)

/-- Base (battery-free) self-consumption: piecewise-linear between the
anchor at ratio 0.5 or 2.0 and the anchor at ratio 1.0. -/
def heuristicBaseSelf (occ : String) (ratio : ℚ) : ℚ :=
  let a := heuristicBaseAnchors occ
  if ratio ≤ 1 then lerpQ ratio (1/2) a.1 1 a.2.1
  else lerpQ ratio 1 a.2.1 2 a.2.2

/-- The pair of clamping assignments `if (x > 0.95) ...; if (x < 0) ...`. -/
noncomputable def clampHeuristic (x : ℝ) : ℝ :=
  if x > 95/100 then 95/100 else if x < 0 then 0 else x

/-- Heuristic self-consumption fraction: interpolated base plus the
battery uplift, clamped to [0, 0.95]. -/
noncomputable def heuristicFraction (i : QuoteInput) (q : Quote) : ℝ :=
  clampHeuristic
    ((heuristicBaseSelf (strOr i.occupancyProfile "half_day") (clampedRatio i q) : ℚ) +
      batteryUpliftMcsTrend (strOr i.occupancyProfile "half_day")
        ((clampedRatio i q : ℚ) : ℝ) ((orZero i.batteryKWh : ℚ) : ℝ))

/-- The shared tail of both estimator branches: self-consumed kWh, bill
savings, export income, total benefit and simple payback from a resolved
fraction. -/
noncomputable def savingsResultFor (fraction : ℝ) (q : Quote) (tag : Option String) :
    SavingsResult :=
  let selfKWh : ℤ := jsRoundR (fraction * (q.estAnnualGenerationKWh : ℝ))
  let exportKWh : ℚ := max (q.estAnnualGenerationKWh - (selfKWh : ℚ)) 0
  let annualBillSavings : ℤ := jsRound ((selfKWh : ℚ) * CONFIG.assumedPricePerKWh)
  let annualSegIncome : ℤ := jsRound (exportKWh * CONFIG.assumedSegPricePerKWh)
  let totalAnnualBenefit : ℤ := annualBillSavings + annualSegIncome
  let midPrice : ℚ := ((q.priceLow : ℚ) + (q.priceHigh : ℚ)) / 2
  { selfConsumptionFraction := fraction
  , selfConsumptionKWh := selfKWh
  , annualBillSavings := annualBillSavings
  , annualSegIncome := annualSegIncome
  , totalAnnualBenefit := totalAnnualBenefit
  , simplePaybackYears :=
      if 0 < totalAnnualBenefit then some (round1 (midPrice / (totalAnnualBenefit : ℚ))) else none
  , selfConsumptionModel := tag
  }

/-- `estimateSelfConsumptionAndSavings(input, quote)`: table mode when both
figures are in the covered domain and a cell resolves, then the
degenerate-zero guard, then the heuristic curve. -/
noncomputable def estimateSelfConsumptionAndSavings (tables : Option McsData)
    (input : QuoteInput) (quote : Quote) : SavingsResult :=
  match mcsAttempt tables input quote with
  | some f => savingsResultFor ((min (max f 0) (95/100) : ℚ) : ℝ) quote (some "mcs")
  | none =>
    if quote.estAnnualGenerationKWh = 0 ∨ demandOf input quote = 0 then zeroSavings
    else savingsResultFor (heuristicFraction input quote) quote (some "heuristic")

/-! ### Generation-override handling in the route

In `POST /api/quote` the PVGIS chain runs inside a `try` whose `catch`
resets the override to `null`; the outcome of that chain is modelled as an
`Except` value (`ok` carrying the returned kWh-or-null, `error` carrying
the thrown message). -/

/-- The `try`/`catch`: an upstream failure yields no override. -/
def pvgisOverrideFromOutcome : Except String (Option ℚ) → Option ℚ
  | Except.ok v => v
  | Except.error _ => none

/-- The guard `input.postcode && Array.isArray(input.roofs) && length > 0`
around the PVGIS attempt, then the `try`/`catch`. -/
def routeGenerationOverride (outcome : Except String (Option ℚ)) (i : QuoteInput) : Option ℚ :=
  if strTruthy i.postcode = true ∧ roofsProvided i = true then
    pvgisOverrideFromOutcome outcome
  else none

/-- The base-quote computation of the route from the PVGIS outcome. -/
def routeBaseQuote (outcome : Except String (Option ℚ)) (i : QuoteInput) : Quote × QuoteInput :=
  calculateQuote i ⟨routeGenerationOverride outcome i⟩

/-! ### Concrete fixtures for counterexamples and witnesses -/

/-- A request body with every optional field absent. -/
def emptyInput : QuoteInput :=
  { postcode := none, houseNumber := none, monthlyBill := none, annualKWh := none
  , roofSize := none, roofs := none, panelOption := none, PanelOption := none
  , panelCount := none, batteryKWh := none, occupancyProfile := none, shading := none
  , extras := none, name := none, email := none, address := none, phone := none }

def noOpts : Opts := ⟨none⟩

/-- Input carrying both a manual panel count and a roofs list totalling a
different, positive panel count. -/
def manualAndRoofsInput : QuoteInput :=
  { emptyInput with
    panelCount := some 10
  , roofs := some [{ panels := some 5, tilt := none, orientation := none, shading := none }] }

/-- Input with a roofs list and no manual panel count. -/
def roofsOnlyInput : QuoteInput :=
  { emptyInput with
    roofs := some [{ panels := some 8, tilt := none, orientation := none, shading := none }] }

/-- Input with only a manual panel count. -/
def manualOnlyInput : QuoteInput := { emptyInput with panelCount := some 10 }

/-- A quote whose numeric fields are all zero. -/
def zeroQuote : Quote :=
  { systemSizeKwp := 0, panelCount := 0, panelWatt := 0, priceLow := 0, priceHigh := 0
  , breakdown := { panels := 0, inverter := 0, battery := 0, scaffolding := 0
                 , extras := 0, labourAndMargin := 0 }
  , estAnnualGenerationKWh := 0, kWhPerKwpRegion := 0, shadingFactor := 0
  , assumedAnnualConsumptionKWh := 0 }

/-- A quote with 3000 kWh generation and consumption, inside the table
domain. -/
def inDomainQuote : Quote :=
  { zeroQuote with estAnnualGenerationKWh := 3000, assumedAnnualConsumptionKWh := 3000 }

/-- A one-cell banded table covering generation and consumption 0-6000 at
battery column 0, fraction 0.45. -/
def oneCellTables : McsData :=
  [ ("half_day",
     [ { consMin := some 0, consMax := some 6000
       , batteryCols := [some 0]
       , rows := some [ { binMin := some 0, binMax := some 6000
                        , fractions := [some (45/100)] } ] } ]) ]

/-- Table applicability in the sense of the spec: generation and
consumption inside the covered domain and a cell resolving. -/
def mcsApplicable (tables : Option McsData) (i : QuoteInput) (q : Quote) : Prop :=
  q.estAnnualGenerationKWh ≤ 6000 ∧ demandOf i q ≤ 6000 ∧
  (lookupMcsSelfConsumptionFraction tables q.estAnnualGenerationKWh (demandOf i q)
    (orZero i.batteryKWh) (strOr i.occupancyProfile "half_day")).isSome = true

instance (tables : Option McsData) (i : QuoteInput) (q : Quote) :
    Decidable (mcsApplicable tables i q) := by
  unfold mcsApplicable; infer_instance

/-! ## Shared lemmas -/

theorem jsRound_nonneg {q : ℚ} (h : 0 ≤ q) : 0 ≤ jsRound q := by
  unfold jsRound
  exact Int.le_floor.2 (by push_cast; linarith)

theorem jsRound_mono {a b : ℚ} (h : a ≤ b) : jsRound a ≤ jsRound b :=
  Int.floor_le_floor (by linarith)

theorem panelCountFromRoofs_pos {i : QuoteInput} {v : ℚ}
    (h : panelCountFromRoofs i = some v) : 0 < v := by
  unfold panelCountFromRoofs at h
  split_ifs at h with hc
  cases h
  exact hc.2.2

theorem panelCountFromRoofs_val {i : QuoteInput} {v : ℚ}
    (h : panelCountFromRoofs i = some v) : v = roofsPanelsTotal i := by
  unfold panelCountFromRoofs at h
  split_ifs at h with hc
  cases h
  rfl

theorem manualPanelCount_pos {i : QuoteInput} {v : ℚ}
    (h : manualPanelCount i = some v) : 0 < v := by
  unfold manualPanelCount at h
  split_ifs at h with hc
  cases h
  exact hc.2

theorem autoPanelCount_pos (i : QuoteInput) : 0 < autoPanelCount i := by
  unfold autoPanelCount
  by_cases h : autoPanelCountZ i < 6
  · rw [if_pos h]; norm_num
  · rw [if_neg h]
    exact_mod_cast lt_of_lt_of_le (by norm_num : (0:ℤ) < 6) (by omega)

theorem resolvedPanelCount_pos (i : QuoteInput) : 0 < resolvedPanelCount i := by
  unfold resolvedPanelCount
  rcases h1 : panelCountFromRoofs i with _ | v
  · rcases h2 : manualPanelCount i with _ | w
    · exact autoPanelCount_pos i
    · exact manualPanelCount_pos h2
  · exact panelCountFromRoofs_pos h1

theorem resolvedPanelOpt_cases (i : QuoteInput) :
    resolvedPanelOpt i = ⟨430, 1⟩ ∨ resolvedPanelOpt i = ⟨460, 112/100⟩ := by
  unfold resolvedPanelOpt panelOptions
  split_ifs <;> simp

theorem panelKwpOf_pos (i : QuoteInput) : 0 < panelKwpOf i := by
  unfold panelKwpOf
  rcases resolvedPanelOpt_cases i with h | h <;> rw [h] <;> norm_num

theorem multiplier_pos (i : QuoteInput) : 0 < (resolvedPanelOpt i).multiplier := by
  rcases resolvedPanelOpt_cases i with h | h <;> rw [h] <;> norm_num

theorem regionMultOf_pos (i : QuoteInput) : 0 < regionMultOf i := by
  unfold regionMultOf regionalMultipliers
  split_ifs <;> norm_num

theorem totalCostOf_nonneg (i : QuoteInput) : 0 ≤ totalCostOf i := by
  have hpc := resolvedPanelCount_pos i
  have hk := panelKwpOf_pos i
  have hm := multiplier_pos i
  have hr := regionMultOf_pos i
  have hsys : 0 ≤ systemSizeKwpOf i := by
    unfold systemSizeKwpOf; exact (mul_pos hpc hk).le
  have hbase : 0 ≤ baseSystemCostOf i := by
    unfold baseSystemCostOf
    exact mul_nonneg (mul_nonneg (mul_nonneg hsys (by norm_num [CONFIG])) hm.le) hr.le
  have hpanels : 0 ≤ panelsCostOf i := by unfold panelsCostOf; linarith
  have hinv : 0 ≤ inverterCostOf i := by unfold inverterCostOf; linarith
  have hscaf : 0 ≤ scaffoldingCostOf i := by
    unfold scaffoldingCostOf
    refine mul_nonneg ?_ hr.le
    have h1 : (0:ℚ) ≤ max ((roofCountOf i : ℚ) - 1) 0 := le_max_right _ _
    have h2 : (0:ℚ) ≤ max ((roofCountOf i : ℚ) - 1) 0 * CONFIG.scaffoldingAdditionalRoof :=
      mul_nonneg h1 (by norm_num [CONFIG])
    have h3 : (0:ℚ) ≤ CONFIG.scaffoldingFirstRoof := by norm_num [CONFIG]
    linarith
  have hbat : 0 ≤ batteryCostOf i := by
    unfold batteryCostOf
    split_ifs with h
    · exact mul_nonneg (mul_nonneg h.le (by norm_num [CONFIG])) hr.le
    · exact le_refl 0
  have hext : 0 ≤ extrasCostOf i := by
    unfold extrasCostOf
    have h350 : (0:ℚ) ≤ 350 * regionMultOf i := mul_nonneg (by norm_num) hr.le
    have h900 : (0:ℚ) ≤ 900 * regionMultOf i := mul_nonneg (by norm_num) hr.le
    split_ifs <;> linarith
  have hdir : 0 ≤ directCostsOf i := by unfold directCostsOf; linarith
  unfold totalCostOf labourAndMarginOf
  linarith

/-- The table lookup rejects non-positive generation or consumption. -/
theorem lookupMcs_none_of_nonpos (tables : Option McsData) (gen cons batt : ℚ)
    (occ : String) (h : gen ≤ 0 ∨ cons ≤ 0) :
    lookupMcsSelfConsumptionFraction tables gen cons batt occ = none := by
  cases tables with
  | none => rfl
  | some tbls =>
    simp only [lookupMcsSelfConsumptionFraction]
    rcases h with h | h
    · rw [if_pos h]
    · by_cases hg : gen ≤ 0
      · rw [if_pos hg]
      · rw [if_neg hg, if_pos h]

/-- Degenerate-input behaviour of the estimator, shared helper. -/
theorem estimate_degenerate (tables : Option McsData) (i : QuoteInput) (q : Quote)
    (h : q.estAnnualGenerationKWh = 0 ∨ demandOf i q = 0) :
    estimateSelfConsumptionAndSavings tables i q = zeroSavings := by
  have hm : mcsAttempt tables i q = none := by
    unfold mcsAttempt
    split_ifs with hc
    · exact lookupMcs_none_of_nonpos _ _ _ _ _ (h.imp le_of_eq le_of_eq)
    · rfl
  unfold estimateSelfConsumptionAndSavings
  rw [hm]
  exact if_pos h

theorem mcsAttempt_isSome_iff (tables : Option McsData) (i : QuoteInput) (q : Quote) :
    (mcsAttempt tables i q).isSome = true ↔ mcsApplicable tables i q := by
  unfold mcsAttempt mcsApplicable
  split_ifs with h
  · constructor
    · intro hs; exact ⟨h.1, h.2, hs⟩
    · intro hc; exact hc.2.2
  · simp only [Option.isSome_none, Bool.false_eq_true, false_iff]
    intro hc; exact h ⟨hc.1, hc.2.1⟩

/-! ## Claims -/

/-- C1: for every input to the quote computation, the returned priceLow and
priceHigh are non-negative integers with priceLow at most priceHigh. -/
theorem priceRange_sound (i : QuoteInput) (opts : Opts) :
    0 ≤ (calculateQuote i opts).1.priceLow ∧
    0 ≤ (calculateQuote i opts).1.priceHigh ∧
    (calculateQuote i opts).1.priceLow ≤ (calculateQuote i opts).1.priceHigh := by
  have ht := totalCostOf_nonneg i
  have hLow : (calculateQuote i opts).1.priceLow
      = jsRound (totalCostOf i * (1 - CONFIG.priceRangeFactor)) := rfl
  have hHigh : (calculateQuote i opts).1.priceHigh
      = jsRound (totalCostOf i * (1 + CONFIG.priceRangeFactor)) := rfl
  refine ⟨?_, ?_, ?_⟩
  · rw [hLow]
    exact jsRound_nonneg (mul_nonneg ht (by norm_num [CONFIG]))
  · rw [hHigh]
    exact jsRound_nonneg (mul_nonneg ht (by norm_num [CONFIG]))
  · rw [hLow, hHigh]
    refine jsRound_mono ?_
    have : (1 - CONFIG.priceRangeFactor) ≤ (1 + CONFIG.priceRangeFactor) := by norm_num [CONFIG]
    exact mul_le_mul_of_nonneg_left this ht

/-- A positive manual panelCount is returned verbatim, shared helper. -/
theorem manualCount_verbatim (i : QuoteInput) (opts : Opts)
    (h : 0 < orZero i.panelCount) :
    (calculateQuote i opts).1.panelCount = orZero i.panelCount := by
  have hroofs : panelCountFromRoofs i = none := by
    unfold panelCountFromRoofs
    rw [if_neg]
    intro hc
    linarith [hc.1]
  have hman : manualPanelCount i = some (orZero i.panelCount) := by
    unfold manualPanelCount
    rw [if_pos ⟨hroofs, h⟩]
  show resolvedPanelCount i = orZero i.panelCount
  unfold resolvedPanelCount
  rw [hroofs, hman]

theorem roofsTotal_manualAndRoofs : roofsPanelsTotal manualAndRoofsInput = 5 := by
  simp [roofsPanelsTotal, manualAndRoofsInput, emptyInput, orZero]

/-- C3 counterexample: with a positive manual panelCount of 10 and a roofs
list totalling 5 panels, the returned panelCount is the manual 10, not the
roof-derived 5 the claim requires. -/
theorem roofs_override_cex :
    0 < roofsPanelsTotal manualAndRoofsInput ∧
    (calculateQuote manualAndRoofsInput noOpts).1.panelCount ≠
      roofsPanelsTotal manualAndRoofsInput := by
  have h10 : orZero manualAndRoofsInput.panelCount = 10 := rfl
  constructor
  · rw [roofsTotal_manualAndRoofs]; norm_num
  · rw [roofsTotal_manualAndRoofs, manualCount_verbatim _ noOpts (by rw [h10]; norm_num), h10]
    norm_num

/-- C3 amended: whenever the roofs list yields a positive total panel sum
and no positive manual panelCount was supplied, the returned panelCount
equals the roof-derived total, overriding the automatic sizing. -/
theorem roofs_total_used (i : QuoteInput) (opts : Opts)
    (hr : 0 < roofsPanelsTotal i) (hm : orZero i.panelCount ≤ 0) :
    (calculateQuote i opts).1.panelCount = roofsPanelsTotal i := by
  have hprov : roofsProvided i = true := by
    rcases hi : i.roofs with _ | l
    · exfalso; simp [roofsPanelsTotal, hi] at hr
    · rcases l with _ | ⟨a, t⟩
      · exfalso; simp [roofsPanelsTotal, hi] at hr
      · simp [roofsProvided, hi]
  have h1 : panelCountFromRoofs i = some (roofsPanelsTotal i) := by
    unfold panelCountFromRoofs
    rw [if_pos ⟨hm, hprov, hr⟩]
  show resolvedPanelCount i = roofsPanelsTotal i
  unfold resolvedPanelCount
  rw [h1]

theorem roofsTotal_roofsOnly : roofsPanelsTotal roofsOnlyInput = 8 := by
  simp [roofsPanelsTotal, roofsOnlyInput, emptyInput, orZero]

/-- C3 amended witness at a concrete roofs-only input. -/
theorem roofs_total_used_witness :
    0 < roofsPanelsTotal roofsOnlyInput ∧ orZero roofsOnlyInput.panelCount ≤ 0 ∧
    (calculateQuote roofsOnlyInput noOpts).1.panelCount = roofsPanelsTotal roofsOnlyInput :=
  ⟨by rw [roofsTotal_roofsOnly]; norm_num, by norm_num [roofsOnlyInput, emptyInput, orZero],
   roofs_total_used roofsOnlyInput noOpts (by rw [roofsTotal_roofsOnly]; norm_num)
     (by norm_num [roofsOnlyInput, emptyInput, orZero])⟩

/-- C5: the annual generation estimate of the quote equals the numeric override
when one is supplied and otherwise the fallback of capacity times the
irradiance factor times 1000 rounded to the nearest integer; a failed
external lookup at the route level yields the fallback, not an error. -/
theorem generation_override_or_fallback (i : QuoteInput) (opts : Opts) (e : String) :
    (calculateQuote i opts).1.estAnnualGenerationKWh
      = (opts.annualGenerationOverrideKWh).getD ((fallbackAnnualOf i : ℤ) : ℚ)
    ∧ (routeBaseQuote (Except.error e) i).1.estAnnualGenerationKWh
      = ((fallbackAnnualOf i : ℤ) : ℚ) := by
  constructor
  · rfl
  · have h : routeGenerationOverride (Except.error e) i = none := by
      unfold routeGenerationOverride pvgisOverrideFromOutcome
      split_ifs <;> rfl
    show (calculateQuote i ⟨routeGenerationOverride (Except.error e) i⟩).1.estAnnualGenerationKWh = _
    rw [h]
    rfl

/-- C6: a positive manual panelCount is always returned verbatim,
independently of every other input field. -/
theorem manual_panel_count_used (i : QuoteInput) (opts : Opts)
    (h : 0 < orZero i.panelCount) :
    (calculateQuote i opts).1.panelCount = orZero i.panelCount :=
  manualCount_verbatim i opts h

/-- C6 witness at a concrete manual-count input. -/
theorem manual_panel_count_used_witness :
    0 < orZero manualOnlyInput.panelCount ∧
    (calculateQuote manualOnlyInput noOpts).1.panelCount = orZero manualOnlyInput.panelCount :=
  ⟨by norm_num [manualOnlyInput, emptyInput, orZero],
   manual_panel_count_used manualOnlyInput noOpts (by norm_num [manualOnlyInput, emptyInput, orZero])⟩

/-- C7: when the generation or the resolved consumption entering the
estimator is zero, the estimator returns the all-zero result with a null
payback instead of failing. -/
theorem degenerate_zero_result (tables : Option McsData) (i : QuoteInput) (q : Quote)
    (h : q.estAnnualGenerationKWh = 0 ∨ demandOf i q = 0) :
    estimateSelfConsumptionAndSavings tables i q = zeroSavings :=
  estimate_degenerate tables i q h

/-- C7 witness at a concrete zero-generation quote. -/
theorem degenerate_zero_result_witness :
    (zeroQuote.estAnnualGenerationKWh = 0 ∨ demandOf emptyInput zeroQuote = 0) ∧
    estimateSelfConsumptionAndSavings none emptyInput zeroQuote = zeroSavings :=
  ⟨Or.inl rfl, degenerate_zero_result none emptyInput zeroQuote (Or.inl rfl)⟩

/-- C2: on every estimator path (table lookup, heuristic, degenerate zero)
the returned selfConsumptionFraction lies in [0, 0.95]. -/
theorem selfConsumptionFraction_in_range (tables : Option McsData) (i : QuoteInput)
    (q : Quote) :
    0 ≤ (estimateSelfConsumptionAndSavings tables i q).selfConsumptionFraction ∧
    (estimateSelfConsumptionAndSavings tables i q).selfConsumptionFraction ≤ 95/100 := by
  unfold estimateSelfConsumptionAndSavings
  cases hm : mcsAttempt tables i q with
  | some f =>
    simp only [savingsResultFor]
    constructor
    · push_cast
      exact le_min (le_max_right _ 0) (by norm_num)
    · push_cast
      exact min_le_right _ _
  | none =>
    split_ifs with h
    · norm_num [zeroSavings]
    · simp only [savingsResultFor]
      unfold heuristicFraction clampHeuristic
      split_ifs with h1 h2
      · norm_num
      · norm_num
      · push_neg at h1 h2
        exact ⟨h2, h1⟩

/-- C4 counterexample: with zero generation (inside the covered domain) no
table cell matches, yet the estimator returns no model tag at all rather
than the heuristic tag the claim requires. -/
theorem model_tag_cex :
    ¬ mcsApplicable none emptyInput zeroQuote ∧
    (estimateSelfConsumptionAndSavings none emptyInput zeroQuote).selfConsumptionModel ≠
      some "heuristic" := by
  constructor
  · rintro ⟨-, -, hs⟩
    simp [lookupMcsSelfConsumptionFraction] at hs
  · rw [estimate_degenerate none emptyInput zeroQuote (Or.inl rfl)]
    simp [zeroSavings]

/-- C4 amended: when generation and consumption are both within the banded
covered domain of the table and a cell resolves, the model tag is "mcs"; when
that fails but generation and consumption are both nonzero the tag is
"heuristic"; in the degenerate zero case no tag is attached. -/
theorem model_tag_amended (tables : Option McsData) (i : QuoteInput) (q : Quote) :
    (mcsApplicable tables i q →
      (estimateSelfConsumptionAndSavings tables i q).selfConsumptionModel = some "mcs") ∧
    (¬ mcsApplicable tables i q → q.estAnnualGenerationKWh ≠ 0 → demandOf i q ≠ 0 →
      (estimateSelfConsumptionAndSavings tables i q).selfConsumptionModel = some "heuristic") ∧
    ((q.estAnnualGenerationKWh = 0 ∨ demandOf i q = 0) →
      (estimateSelfConsumptionAndSavings tables i q).selfConsumptionModel = none) := by
  refine ⟨?_, ?_, ?_⟩
  · intro hc
    have hs : (mcsAttempt tables i q).isSome = true := (mcsAttempt_isSome_iff tables i q).2 hc
    obtain ⟨f, hf⟩ := Option.isSome_iff_exists.mp hs
    unfold estimateSelfConsumptionAndSavings
    rw [hf]
    simp [savingsResultFor]
  · intro hc hg hd
    have hnone : mcsAttempt tables i q = none := by
      cases hmm : mcsAttempt tables i q with
      | none => rfl
      | some f =>
        exact absurd ((mcsAttempt_isSome_iff tables i q).1 (by rw [hmm]; rfl)) hc
    unfold estimateSelfConsumptionAndSavings
    rw [hnone, if_neg (by tauto)]
    simp [savingsResultFor]
  · intro h0
    rw [estimate_degenerate tables i q h0]
    rfl

theorem demandOf_inDomain : demandOf emptyInput inDomainQuote = 3000 := by
  norm_num [demandOf, inDomainQuote, zeroQuote]

theorem lookup_oneCell :
    lookupMcsSelfConsumptionFraction (some oneCellTables) 3000 3000 0 "half_day"
      = some (45/100) := by
  norm_num [lookupMcsSelfConsumptionFraction, oneCellTables, pickBestBatteryIdx, pickIdxGo,
    List.lookup, List.find?]

/-- C4 amended witness: a concrete one-cell table on which the lookup
resolves and the returned tag is "mcs". -/
theorem model_tag_amended_witness :
    mcsApplicable (some oneCellTables) emptyInput inDomainQuote ∧
    (estimateSelfConsumptionAndSavings (some oneCellTables) emptyInput
      inDomainQuote).selfConsumptionModel = some "mcs" := by
  have happ : mcsApplicable (some oneCellTables) emptyInput inDomainQuote := by
    refine ⟨by norm_num [inDomainQuote, zeroQuote], ?_, ?_⟩
    · rw [demandOf_inDomain]; norm_num
    · rw [demandOf_inDomain]
      have hq : inDomainQuote.estAnnualGenerationKWh = 3000 := by
        norm_num [inDomainQuote, zeroQuote]
      have hb : orZero emptyInput.batteryKWh = 0 := rfl
      have ho : strOr emptyInput.occupancyProfile "half_day" = "half_day" := rfl
      rw [hq, hb, ho, lookup_oneCell]
      rfl
  exact ⟨happ, (model_tag_amended (some oneCellTables) emptyInput inDomainQuote).1 happ⟩

/-- C8 counterexample: calculateQuote writes the normalized panel option
back into its input, so an input with no panelOption is not returned
unchanged. -/
theorem input_mutated_cex : (calculateQuote emptyInput noOpts).2 ≠ emptyInput := by
  decide

/-- C8 amended: calculateQuote leaves every input field unchanged except
panelOption, which it sets to the normalized panel option. -/
theorem calculateQuote_mutates_only_panelOption (i : QuoteInput) (opts : Opts) :
    (calculateQuote i opts).2 = { i with panelOption := some (normalizedPanelOption i) } :=
  rfl

theorem toNat_ofNat_sub32 : ∀ n < 123, 97 ≤ n → (Char.ofNat (n - 32)).toNat = n - 32 := by
  decide

theorem upperChar_idem (c : Char) : upperChar (upperChar c) = upperChar c := by
  unfold upperChar
  by_cases h : 97 ≤ c.toNat ∧ c.toNat ≤ 122
  · rw [if_pos h]
    have ht : (Char.ofNat (c.toNat - 32)).toNat = c.toNat - 32 :=
      toNat_ofNat_sub32 c.toNat (by omega) h.1
    rw [if_neg (by rw [ht]; omega)]
  · rw [if_neg h, if_neg h]

theorem map_id_of_mem {f : Char → Char} :
    ∀ l : List Char, (∀ c ∈ l, f c = c) → l.map f = l := by
  intro l
  induction l with
  | nil => intro _; rfl
  | cons a t ih =>
    intro h
    simp only [List.map_cons]
    rw [h a (by simp), ih (fun c hc => h c (by simp [hc]))]

theorem filter_id_of_mem {p : Char → Bool} :
    ∀ l : List Char, (∀ c ∈ l, p c = true) → l.filter p = l := by
  intro l
  induction l with
  | nil => intro _; rfl
  | cons a t ih =>
    intro h
    rw [List.filter_cons_of_pos (h a (by simp)), ih (fun c hc => h c (by simp [hc]))]

/-- C9: postcode normalisation is idempotent; re-normalising a successful
output succeeds and returns it unchanged. -/
theorem normalize_idempotent (raw s : List Char)
    (h : validateAndNormalisePostcode raw = some s) :
    validateAndNormalisePostcode s = some s := by
  simp only [validateAndNormalisePostcode] at h
  split_ifs at h with h1 h2 h3
  set cleaned := (raw.map upperChar).filter (fun c => !isWsCh c) with hcdef
  set n := cleaned.length with hndef
  set A := cleaned.take (n - 3) with hAdef
  set B := cleaned.drop (n - 3) with hBdef
  obtain rfl : A ++ ' ' :: B = s := Option.some.inj h
  have hn5 : 5 ≤ n := by omega
  have hfix : ∀ c ∈ cleaned, upperChar c = c := by
    intro c hcmem
    rw [hcdef] at hcmem
    have hm : c ∈ raw.map upperChar := List.mem_of_mem_filter hcmem
    obtain ⟨a, -, rfl⟩ := List.mem_map.mp hm
    exact upperChar_idem a
  have hws : ∀ c ∈ cleaned, (!isWsCh c) = true := by
    intro c hcmem
    rw [hcdef] at hcmem
    exact (List.mem_filter.mp hcmem).2
  have hAfix : ∀ c ∈ A, upperChar c = c := fun c hc => hfix c (List.take_subset _ _ hc)
  have hBfix : ∀ c ∈ B, upperChar c = c := fun c hc => hfix c (List.drop_subset _ _ hc)
  have hAws : ∀ c ∈ A, (!isWsCh c) = true := fun c hc => hws c (List.take_subset _ _ hc)
  have hBws : ∀ c ∈ B, (!isWsCh c) = true := fun c hc => hws c (List.drop_subset _ _ hc)
  have hA_len : A.length = n - 3 := by
    rw [hAdef, List.length_take]
    omega
  have hB_len : B.length = 3 := by
    rw [hBdef, List.length_drop]
    omega
  have hspace : upperChar ' ' = ' ' := by decide
  have hspace2 : (!isWsCh ' ') = false := by decide
  have hmap : (A ++ ' ' :: B).map upperChar = A ++ ' ' :: B := by
    rw [List.map_append, List.map_cons, hspace, map_id_of_mem A hAfix, map_id_of_mem B hBfix]
  have hclean2 : ((A ++ ' ' :: B).map upperChar).filter (fun c => !isWsCh c) = A ++ B := by
    rw [hmap, List.filter_append, List.filter_cons, hspace2]
    simp only [Bool.false_eq_true, if_false]
    rw [filter_id_of_mem A hAws, filter_id_of_mem B hBws]
  have hlen2 : (A ++ B).length = n := by
    rw [List.length_append, hA_len, hB_len]
    omega
  have htake : (A ++ B).take (n - 3) = A := by
    rw [← hA_len, List.take_left]
  have hdrop : (A ++ B).drop (n - 3) = B := by
    rw [← hA_len, List.drop_left]
  have hne : A ++ ' ' :: B ≠ [] := by simp
  simp only [validateAndNormalisePostcode]
  rw [if_neg hne, hclean2, hlen2, if_neg h2, htake, hdrop, if_pos h3]

theorem lerpR_nonneg {x x1 y1 x2 y2 : ℝ} (h1 : 0 ≤ y1) (h2 : 0 ≤ y2) :
    0 ≤ lerpR x x1 y1 x2 y2 := by
  unfold lerpR
  split_ifs with ha hb
  · exact h1
  · exact h2
  · push_neg at ha hb
    have hd : 0 < x2 - x1 := by linarith
    have ht0 : 0 ≤ (x - x1) / (x2 - x1) := div_nonneg (by linarith) hd.le
    have ht1 : (x - x1) / (x2 - x1) ≤ 1 := (div_le_one hd).mpr (by linarith)
    rw [mul_div_assoc]
    nlinarith [mul_nonneg h2 ht0, mul_nonneg h1 (sub_nonneg.2 ht1)]

theorem piecewiseAux_nonneg {r : ℝ} :
    ∀ {a : ℝ × ℝ} {l : List (ℝ × ℝ)}, 0 ≤ a.2 → (∀ p ∈ l, 0 ≤ p.2) →
      0 ≤ piecewiseAux r a l := by
  intro a l
  induction l generalizing a with
  | nil =>
    intro ha _
    simpa [piecewiseAux] using ha
  | cons b t ih =>
    intro ha hl
    simp only [piecewiseAux]
    split_ifs with h
    · exact lerpR_nonneg ha (hl b (by simp))
    · exact ih (hl b (by simp)) (fun p hp => hl p (by simp [hp]))

theorem piecewiseRatioValue_nonneg {r : ℝ} {l : List (ℝ × ℝ)}
    (hl : ∀ p ∈ l, 0 ≤ p.2) : 0 ≤ piecewiseRatioValue r l := by
  cases l with
  | nil => simp [piecewiseRatioValue]
  | cons p t =>
    simp only [piecewiseRatioValue]
    split_ifs with h
    · exact hl p (by simp)
    · exact piecewiseAux_nonneg (hl p (by simp)) (fun q hq => hl q (by simp [hq]))

theorem upliftParams_scale_pos (occ : String) : 0 < (upliftParams occ).1 := by
  unfold upliftParams
  split_ifs <;> norm_num

theorem upliftParams_points_nonneg (occ : String) :
    ∀ p ∈ (upliftParams occ).2, 0 ≤ p.2 := by
  unfold upliftParams
  split_ifs <;> intro p hp <;> fin_cases hp <;> norm_num

/-- Range part of the uplift claim, shared helper. -/
theorem batteryUplift_range (occ : String) (ratio b : ℝ) :
    0 ≤ batteryUpliftMcsTrend occ ratio b ∧ batteryUpliftMcsTrend occ ratio b ≤ 8/10 := by
  unfold batteryUpliftMcsTrend
  by_cases h : max 0 b ≤ 0
  · rw [if_pos h]
    norm_num
  · rw [if_neg h]
    exact ⟨le_max_left 0 _, max_le (by norm_num) (min_le_right _ _)⟩

/-- Monotonicity part of the uplift claim, shared helper. -/
theorem batteryUplift_mono (occ : String) (ratio : ℝ) {b1 b2 : ℝ}
    (h0 : 0 ≤ b1) (h12 : b1 ≤ b2) :
    batteryUpliftMcsTrend occ ratio b1 ≤ batteryUpliftMcsTrend occ ratio b2 := by
  by_cases hz : b1 ≤ 0
  · have hb1 : max 0 b1 ≤ 0 := max_le (le_refl 0) hz
    unfold batteryUpliftMcsTrend
    rw [if_pos hb1]
    by_cases h2 : max 0 b2 ≤ 0
    · rw [if_pos h2]
    · rw [if_neg h2]
      exact le_max_left 0 _
  · push_neg at hz
    have hm1 : max 0 b1 = b1 := max_eq_right h0
    have hm2 : max 0 b2 = b2 := max_eq_right (le_trans h0 h12)
    have hb2 : (0:ℝ) < b2 := lt_of_lt_of_le hz h12
    have hs := upliftParams_scale_pos occ
    have hM : (0:ℝ) ≤ piecewiseRatioValue
        (max (1/2) (min 2 (if ratio = 0 then 1 else ratio))) (upliftParams occ).2 :=
      piecewiseRatioValue_nonneg (upliftParams_points_nonneg occ)
    have hexp : Real.exp (-b2 / (upliftParams occ).1) ≤ Real.exp (-b1 / (upliftParams occ).1) :=
      Real.exp_le_exp.mpr ((div_le_div_iff_of_pos_right hs).mpr (by linarith))
    unfold batteryUpliftMcsTrend
    rw [hm1, hm2]
    rw [if_neg (not_le.mpr hz), if_neg (not_le.mpr hb2)]
    exact max_le_max (le_refl 0)
      (min_le_min (mul_le_mul_of_nonneg_left (sub_le_sub_left hexp 1) hM) (le_refl _))

/-- C10: the heuristic battery uplift is monotone non-decreasing in the
battery size for every occupancy profile and fixed ratio, and every value
lies in [0, 0.80]. -/
theorem battery_uplift_monotone_and_bounded (occ : String) (ratio b1 b2 : ℝ)
    (h0 : 0 ≤ b1) (h12 : b1 ≤ b2) :
    batteryUpliftMcsTrend occ ratio b1 ≤ batteryUpliftMcsTrend occ ratio b2 ∧
    ∀ b : ℝ, 0 ≤ batteryUpliftMcsTrend occ ratio b ∧
      batteryUpliftMcsTrend occ ratio b ≤ 8/10 :=
  ⟨batteryUplift_mono occ ratio h0 h12, fun b => batteryUplift_range occ ratio b⟩

/-- C10 witness at battery sizes 0 and 1 for the half-day profile. -/
theorem battery_uplift_monotone_and_bounded_witness :
    (0:ℝ) ≤ 0 ∧ (0:ℝ) ≤ 1 ∧
    (batteryUpliftMcsTrend "half_day" 1 0 ≤ batteryUpliftMcsTrend "half_day" 1 1 ∧
     ∀ b : ℝ, 0 ≤ batteryUpliftMcsTrend "half_day" 1 b ∧
       batteryUpliftMcsTrend "half_day" 1 b ≤ 8/10) :=
  ⟨le_refl 0, by norm_num,
   battery_uplift_monotone_and_bounded "half_day" 1 0 1 (le_refl 0) (by norm_num)⟩

/-- C9 witness at the postcode SW1A1AA. -/
theorem normalize_idempotent_witness :
    validateAndNormalisePostcode ['S', 'W', '1', 'A', '1', 'A', 'A']
      = some ['S', 'W', '1', 'A', ' ', '1', 'A', 'A'] ∧
    validateAndNormalisePostcode ['S', 'W', '1', 'A', ' ', '1', 'A', 'A']
      = some ['S', 'W', '1', 'A', ' ', '1', 'A', 'A'] :=
  ⟨by decide,
   normalize_idempotent ['S', 'W', '1', 'A', '1', 'A', 'A']
     ['S', 'W', '1', 'A', ' ', '1', 'A', 'A'] (by decide)⟩

end Solar
